import Mathlib

/-!
Verification of the record normalization, transformation and aggregation
layer of the japan-house-trend repository (src/data_transformer.py,
src/update_pipeline.py, src/ui/home.py), shallowly embedded in Lean 4.

Conventions of the embedding:
* Python strings are Lean `String`s; a missing dictionary key
  (reading a key with a default of the empty string) is modelled by `Option String`.
* Python `int(s)` is modelled by `pyInt` (optional sign followed by a
  nonempty run of decimal digits; failure is `none`).  The regex class
  `\d` is modelled as the ASCII digits `0`-`9`.
* Python `float(s)` applied to a string containing only digits and dots
  is modelled by `pyFloat`.
* Python truthiness of an `Optional[int]` (`if x:`) is `pyTruthyInt`:
  `None` and `0` are falsy.  Truthiness of a string is nonemptiness.
* `str.strip()` is modelled by `pyStrip` over the whitespace characters
  that occur in this data (ASCII whitespace and the ideographic space).
-/

namespace JapanHouseTrend

/-- Numeric value of a list of ASCII digit characters, accumulating left
to right exactly as repeated `10*acc + digit` does. -/
def digitsVal (l : List Char) : Nat :=
  l.foldl (fun a c => 10 * a + (c.toNat - 48)) 0

/-- Model of Python `int(s)`: optional sign then a nonempty run of
digits; `none` models the ValueError caught by the try/except of the
source. -/
def pyInt (s : String) : Option Int :=
  match s.toList with
  | [] => none
  | c :: rest =>
    if c = '-' then
      if rest ≠ [] ∧ rest.all Char.isDigit then some (-(digitsVal rest : Int)) else none
    else if c = '+' then
      if rest ≠ [] ∧ rest.all Char.isDigit then some ((digitsVal rest : Int)) else none
    else if (c :: rest).all Char.isDigit then some ((digitsVal (c :: rest) : Int))
    else none

/-- Model of Python `float(s)` restricted to the digit/dot strings that
`clean_area` feeds it: at most one dot and at least one digit. -/
def pyFloat (s : String) : Option ℚ :=
  let l := s.toList
  match (l.filter (fun c => c = '.')).length with
  | 0 => if l ≠ [] ∧ l.all Char.isDigit then some (mkRat (digitsVal l) 1) else none
  | 1 =>
    let a := l.takeWhile (fun c => c ≠ '.')
    let b := (l.dropWhile (fun c => c ≠ '.')).drop 1
    if (a ≠ [] ∨ b ≠ []) ∧ a.all Char.isDigit ∧ b.all Char.isDigit then
      some (mkRat (digitsVal a * 10 ^ b.length + digitsVal b) (10 ^ b.length))
    else none
  | _ => none

/-- Whitespace stripped by Python `str.strip()` (the subset occurring in
this data: ASCII whitespace plus the ideographic space U+3000). -/
def isPySpace (c : Char) : Bool :=
  c = ' ' ∨ c = '\t' ∨ c = '\n' ∨ c = '\x0d' ∨ c = '\x0b' ∨ c = '\x0c' ∨ c = '　'

/-- Model of Python `str.strip()`. -/
def pyStrip (s : String) : String :=
  String.mk (((s.toList.dropWhile isPySpace).reverse.dropWhile isPySpace).reverse)

/-- Python truthiness of an `Optional[int]`: `None` and `0` are falsy. -/
def pyTruthyInt : Option Int → Bool
  | none => false
  | some n => n ≠ 0

/-- Python `x or d` on an `Optional[int]` `x` and an int default `d`. -/
def pyOrInt (x : Option Int) (d : Int) : Int :=
  match x with
  | none => d
  | some n => if n ≠ 0 then n else d

/-- Room type standardization mapping (`self.room_type_mapping`). -/
def room_type_mapping : List (String × String) :=
  [("１Ｒ", "１Ｒ"),
   ("１Ｋ", "１Ｋ"),
   ("１ＤＫ", "１Ｋ"),
   ("１ＬＤＫ", "１ＬＤＫ"),
   ("２Ｋ", "１Ｋ"),
   ("２ＤＫ", "２ＬＤＫ"),
   ("２ＬＤＫ", "２ＬＤＫ"),
   ("３Ｋ", "３ＬＤＫ"),
   ("３ＤＫ", "３ＬＤＫ"),
   ("３ＬＤＫ", "３ＬＤＫ"),
   ("４Ｋ", "４ＬＤＫ"),
   ("４ＤＫ", "４ＬＤＫ"),
   ("４ＬＤＫ", "４ＬＤＫ"),
   ("５Ｋ以上", "４ＬＤＫ"),
   ("５ＤＫ以上", "４ＬＤＫ"),
   ("５ＬＤＫ以上", "４ＬＤＫ")]

/-- Property type filter (`self.valid_property_types`). -/
def valid_property_types : List String :=
  ["中古マンション等", "宅地(土地と建物)", "土地", "建物"]

/-- Containment of a character sequence within another, checked at every
suffix position. -/
def containsSeg (p : List Char) : List Char → Bool
  | [] => p.isPrefixOf []
  | c :: rest => p.isPrefixOf (c :: rest) || containsSeg p rest

/-- Substring containment, Python `pattern in s`. -/
def strContains (s pattern : String) : Bool :=
  containsSeg pattern.toList s.toList

/-- Model of the regex search for four digits followed by 年 tried at
the head of the character list. -/
def matchYearAt : List Char → Option Nat
  | a :: b :: c :: d :: e :: _ =>
    if a.isDigit ∧ b.isDigit ∧ c.isDigit ∧ d.isDigit ∧ e = '年' then
      some (digitsVal [a, b, c, d])
    else none
  | _ => none

/-- Left-to-right scan of `re.search`: first position where
`matchYearAt` succeeds. -/
def findYear : List Char → Option Nat
  | [] => none
  | c :: rest =>
    match matchYearAt (c :: rest) with
    | some y => some y
    | none => findYear rest

/-- Source function `extract_year_from_period`: extract a 4-digit year from a period
string like `2024年第1四半期`; `None` if parsing fails. -/
def extract_year_from_period (period : String) : Option Int :=
  (findYear period.toList).map (fun y => (y : Int))

/-- Source function `extract_building_age`: building age from a building-year string
like `2003年` and a transaction year; clamped below by 0; `None` if the
string is empty, lacks the marker, or `int()` fails. -/
def extract_building_age (building_year : String) (transaction_year : Int) : Option Int :=
  if building_year ≠ "" ∧ building_year.toList.contains '年' then
    match pyInt (String.mk (building_year.toList.filter (fun c => c ≠ '年'))) with
    | some b => some (max 0 (transaction_year - b))
    | none => none
  else none

/-- Source function `standardize_room_type`: exact lookup in the mapping table, then the
ordered substring fallback chain, else その他. -/
def standardize_room_type (floor_plan : String) : String :=
  if floor_plan = "" then "その他"
  else
    let clean_plan := pyStrip floor_plan
    match room_type_mapping.lookup clean_plan with
    | some v => v
    | none =>
      if strContains clean_plan "１Ｒ" ∨ strContains clean_plan "1R" then "１Ｒ"
      else if strContains clean_plan "１Ｋ" ∨ strContains clean_plan "1K" then "１Ｋ"
      else if strContains clean_plan "１ＬＤＫ" ∨ strContains clean_plan "1LDK" then "１ＬＤＫ"
      else if strContains clean_plan "２ＬＤＫ" ∨ strContains clean_plan "2LDK" then "２ＬＤＫ"
      else if strContains clean_plan "３ＬＤＫ" ∨ strContains clean_plan "3LDK" then "３ＬＤＫ"
      else if strContains clean_plan "４ＬＤＫ" ∨ strContains clean_plan "4LDK" then "４ＬＤＫ"
      else "その他"

/-- Source function `clean_price`: strip every character outside the regex
class of digits and convert the rest with int(); absent on an empty
input or empty stripped string. -/
def clean_price (trade_price : String) : Option Int :=
  if trade_price ≠ "" then
    let cp := String.mk (trade_price.toList.filter Char.isDigit)
    if cp ≠ "" then pyInt cp else none
  else none

/-- Source function `clean_area`: strip every character other than digits
and dots and convert the rest with float(); absent on an empty input,
empty stripped string, or float() failure. -/
def clean_area (area : String) : Option ℚ :=
  if area ≠ "" then
    let ca := String.mk (area.toList.filter (fun c => c.isDigit ∨ c = '.'))
    if ca ≠ "" then pyFloat ca else none
  else none

/-- A raw API record: each upstream field as delivered, `none` when the
key is missing (a read with an empty-string default then yields the
empty string).  `propType` models the upstream Type field. -/
structure RawRecord where
  propType : Option String
  prefecture : Option String
  municipality : Option String
  districtName : Option String
  tradePrice : Option String
  floorPlan : Option String
  area : Option String
  buildingYear : Option String
  period : Option String
deriving DecidableEq

/-- Dictionary read with an empty-string default. -/
def oget (o : Option String) : String := o.getD ""

/-- A transformed (normalized) record, one field per CSV column emitted
by `transform_api_record`. -/
structure TransformedRecord where
  propType : String
  prefecture : String
  municipality : String
  district : String
  stationName : String
  stationDistance : String
  price : Option Int
  floorPlanCategory : String
  areaSqm : Option ℚ
  buildingYear : String
  period : String
  transactionYear : Option Int
  buildingAge : Option Int
deriving DecidableEq

/-- Source function `transform_api_record`: apply every field normalizer to one raw
record; the transaction year is computed once from the period and the
building-age call receives `transaction_year or 2024`. -/
def transform_api_record (r : RawRecord) : TransformedRecord :=
  let transaction_year := extract_year_from_period (oget r.period)
  { propType := oget r.propType
    prefecture := oget r.prefecture
    municipality := oget r.municipality
    district := oget r.districtName
    stationName := ""
    stationDistance := ""
    price := clean_price (oget r.tradePrice)
    floorPlanCategory := standardize_room_type (oget r.floorPlan)
    areaSqm := clean_area (oget r.area)
    buildingYear := oget r.buildingYear
    period := oget r.period
    transactionYear := transaction_year
    buildingAge := extract_building_age (oget r.buildingYear) (pyOrInt transaction_year 2024) }

/-- Membership test of the raw Type field in `valid_property_types` (a
missing key gives the absent marker, which is never in the list). -/
def isValidType (r : RawRecord) : Bool :=
  match r.propType with
  | some t => valid_property_types.contains t
  | none => false

/-- Source function `transform_api_data`: filter by property type,
transform, and keep only records whose price and transaction year are
both truthy. -/
def transform_api_data : List RawRecord → List TransformedRecord
  | [] => []
  | r :: rest =>
    if isValidType r then
      let t := transform_api_record r
      if pyTruthyInt t.price && pyTruthyInt t.transactionYear then
        t :: transform_api_data rest
      else transform_api_data rest
    else transform_api_data rest

/-- One row of the chart DataFrame, projected to the columns the
aggregation in `generate_single_chart` reads. -/
structure ChartRow where
  municipality : String
  floorPlanCategory : String
  transactionYear : Int
  price : ℚ
deriving DecidableEq

/-- Row selection of `generate_single_chart`: by area, and by room type
unless the room type is `ALL`. -/
def filter_chart (df : List ChartRow) (area room_type : String) : List ChartRow :=
  if room_type ≠ "ALL" then
    df.filter (fun r => r.municipality == area && r.floorPlanCategory == room_type)
  else
    df.filter (fun r => r.municipality == area)

/-- Rows of one per-year group of the pandas groupby on 取引時期（年）. -/
def groupRows (df : List ChartRow) (y : Int) : List ChartRow :=
  df.filter (fun r => r.transactionYear == y)

/-- Per-year mean of 取引価格（総額） over the grouped rows, read at year
`y`: `none` when `y` has no rows (pandas emits no entry for it). -/
def yearly_avg_price (df : List ChartRow) (y : Int) : Option ℚ :=
  if groupRows df y = [] then none
  else some ((((groupRows df y).map (fun r => r.price)).sum) / (((groupRows df y).length : ℚ)))

/-- Per-year row count of the grouped rows, read at year `y`. -/
def yearly_count (df : List ChartRow) (y : Int) : ℕ :=
  (groupRows df y).length

/-- Concrete selection used by the aggregation example: years
[2020, 2020, 2021] with prices [100, 200, 300] in a single area. -/
def exampleRows : List ChartRow :=
  [⟨"A市", "１Ｋ", 2020, 100⟩, ⟨"A市", "２ＬＤＫ", 2020, 200⟩, ⟨"A市", "１Ｋ", 2021, 300⟩]

/-- A raw record whose transformed price is present and equal to 0, with
a valid property type and a parseable period. -/
def rawPriceZero : RawRecord :=
  ⟨some "土地", some "東京都", some "千代田区", some "大手町",
   some "0", some "１Ｋ", some "50", some "2000年", some "2024年第1四半期"⟩

/-- A raw record whose period parses to the year 0, exercising the
truthiness of `transaction_year or 2024`. -/
def rawYearZero : RawRecord :=
  ⟨some "土地", some "東京都", some "千代田区", some "大手町",
   some "1000", some "１Ｋ", some "50", some "1990年", some "0000年"⟩

/-- A raw record whose floor-plan field is missing. -/
def rawMissingPlan : RawRecord :=
  ⟨some "土地", some "東京都", some "千代田区", some "大手町",
   some "1000", none, some "50", some "1990年", some "2024年第1四半期"⟩

/-- A raw record whose location fields carry surrounding whitespace. -/
def rawPadded : RawRecord :=
  ⟨some "土地", some " 東京都 ", some " 千代田区 ", some " 大手町 ",
   some "1000", some "１Ｋ", some "50", some "1990年", some "2024年第1四半期"⟩

/-- The fixed set of floor-plan categories produced by the transformer. -/
def roomCategories : List String :=
  ["１Ｒ", "１Ｋ", "１ＬＤＫ", "２ＬＤＫ", "３ＬＤＫ", "４ＬＤＫ", "その他"]

end JapanHouseTrend

namespace JapanHouseTrend

theorem lookup_val_mem {l : List (String × String)} {k v : String}
    (h : l.lookup k = some v) : v ∈ l.map Prod.snd := by
  induction l with
  | nil => simp [List.lookup] at h
  | cons p t ih =>
    rw [List.lookup] at h
    by_cases hk : (k == p.1) = true
    · rw [hk] at h
      simp only [Option.some.injEq] at h
      subst h
      exact List.mem_map.mpr ⟨p, List.mem_cons_self p t, rfl⟩
    · rw [Bool.not_eq_true] at hk
      rw [hk] at h
      exact List.mem_cons_of_mem _ (ih h)

theorem standardize_room_type_mem (s : String) :
    standardize_room_type s ∈ roomCategories := by
  unfold standardize_room_type
  split
  · decide
  · cases hl : room_type_mapping.lookup (pyStrip s) with
    | some v =>
      simp only [hl]
      have hmem : v ∈ room_type_mapping.map Prod.snd := lookup_val_mem hl
      have hsub : ∀ x ∈ room_type_mapping.map Prod.snd, x ∈ roomCategories := by decide
      exact hsub v hmem
    | none =>
      simp only [hl]
      split_ifs <;> decide

theorem pyInt_digits (l : List Char) (h1 : l ≠ []) (h2 : l.all Char.isDigit = true) :
    pyInt (String.mk l) = some ((digitsVal l : Int)) := by
  cases l with
  | nil => exact absurd rfl h1
  | cons c rest =>
    have hc : c.isDigit = true := by
      have := (List.all_eq_true.mp h2) c (List.mem_cons_self c rest)
      simpa using this
    have hm : c ≠ '-' := by
      intro he; rw [he] at hc; simp at hc
    have hp : c ≠ '+' := by
      intro he; rw [he] at hc; simp at hc
    show pyInt ⟨c :: rest⟩ = some ((digitsVal (c :: rest) : Int))
    unfold pyInt
    simp only [String.toList]
    rw [if_neg hm, if_neg hp, if_pos h2]

theorem pyTruthyInt_iff (o : Option Int) :
    pyTruthyInt o = true ↔ ∃ n, o = some n ∧ n ≠ 0 := by
  cases o with
  | none => simp [pyTruthyInt]
  | some n => simp [pyTruthyInt]

theorem clean_price_eq_digits (s : String) :
    clean_price s = if s.toList.filter Char.isDigit = [] then none
      else some ((digitsVal (s.toList.filter Char.isDigit) : Int)) := by
  by_cases hs : s = ""
  · subst hs
    simp [clean_price]
  · rw [clean_price, if_pos hs]
    by_cases hf : s.toList.filter Char.isDigit = []
    · rw [hf]
      simp
    · have hne : String.mk (s.toList.filter Char.isDigit) ≠ "" := by
        intro he
        exact hf (congrArg String.data he)
      rw [if_pos hne, if_neg hf]
      have hall : (s.toList.filter Char.isDigit).all Char.isDigit = true := by
        rw [List.all_eq_true]
        intro c hc
        have := (List.mem_filter.mp hc).2
        simpa using this
      exact pyInt_digits _ hf hall

theorem validType_mem (r : RawRecord) (h : isValidType r = true) :
    oget r.propType ∈ valid_property_types := by
  unfold isValidType at h
  cases hp : r.propType with
  | none =>
    rw [hp] at h
    simp at h
  | some t =>
    rw [hp] at h
    exact List.elem_iff.mp h

theorem pyFloat_nonneg (t : String) (q : ℚ) (h : pyFloat t = some q) : 0 ≤ q := by
  simp only [pyFloat] at h
  split at h
  · split at h
    · have he : mkRat ((digitsVal t.toList : Int)) 1 = q := by simpa using h
      rw [← he, Rat.mkRat_one]
      exact_mod_cast Int.natCast_nonneg _
    · exact absurd h (by simp)
  · split at h
    · rw [Option.some.injEq] at h
      rw [← h, Rat.mkRat_eq_div]
      apply div_nonneg
      · exact_mod_cast Int.natCast_nonneg _
      · positivity
    · exact absurd h (by simp)
  · exact absurd h (by simp)

theorem clean_price_nonneg (s : String) (n : Int) (h : clean_price s = some n) : 0 ≤ n := by
  rw [clean_price_eq_digits s] at h
  by_cases hf : s.toList.filter Char.isDigit = []
  · rw [if_pos hf] at h
    exact absurd h (by simp)
  · rw [if_neg hf] at h
    have he : ((digitsVal (s.toList.filter Char.isDigit) : Int)) = n := by simpa using h
    rw [← he]
    exact Int.natCast_nonneg _

theorem clean_area_nonneg (s : String) (q : ℚ) (h : clean_area s = some q) : 0 ≤ q := by
  simp only [clean_area] at h
  split at h
  · split at h
    · exact pyFloat_nonneg _ q h
    · exact absurd h (by simp)
  · exact absurd h (by simp)

theorem extract_year_nonneg (s : String) (y : Int)
    (h : extract_year_from_period s = some y) : 0 ≤ y := by
  unfold extract_year_from_period at h
  cases hf : findYear s.toList with
  | none =>
    rw [hf] at h
    simp at h
  | some n =>
    rw [hf] at h
    have he : (n : Int) = y := by simpa using h
    rw [← he]
    exact Int.natCast_nonneg n

theorem extract_building_age_nonneg (s : String) (ty a : Int)
    (h : extract_building_age s ty = some a) : 0 ≤ a := by
  unfold extract_building_age at h
  split at h
  · split at h
    · rw [Option.some.injEq] at h
      rw [← h]
      exact le_max_left _ _
    · exact absurd h (by simp)
  · exact absurd h (by simp)

theorem mem_transform_api_data (batch : List RawRecord) (t : TransformedRecord) :
    t ∈ transform_api_data batch ↔
      ∃ r ∈ batch, isValidType r = true ∧ t = transform_api_record r ∧
        (pyTruthyInt t.price && pyTruthyInt t.transactionYear) = true := by
  induction batch with
  | nil => simp [transform_api_data]
  | cons a rest ih =>
    simp only [transform_api_data]
    by_cases hv : isValidType a = true
    · rw [if_pos hv]
      by_cases hc : (pyTruthyInt (transform_api_record a).price
          && pyTruthyInt (transform_api_record a).transactionYear) = true
      · rw [if_pos hc, List.mem_cons, ih]
        constructor
        · rintro (he | ⟨r, hr, h1, h2, h3⟩)
          · exact ⟨a, List.mem_cons_self a rest, hv, he, by rw [he]; exact hc⟩
          · exact ⟨r, List.mem_cons_of_mem _ hr, h1, h2, h3⟩
        · rintro ⟨r, hr, h1, h2, h3⟩
          rcases List.mem_cons.mp hr with he | hm
          · exact Or.inl (he ▸ h2)
          · exact Or.inr ⟨r, hm, h1, h2, h3⟩
      · rw [if_neg hc, ih]
        constructor
        · rintro ⟨r, hr, h1, h2, h3⟩
          exact ⟨r, List.mem_cons_of_mem _ hr, h1, h2, h3⟩
        · rintro ⟨r, hr, h1, h2, h3⟩
          rcases List.mem_cons.mp hr with he | hm
          · exfalso
            rw [h2, he] at h3
            exact hc h3
          · exact ⟨r, hm, h1, h2, h3⟩
    · rw [if_neg hv, ih]
      constructor
      · rintro ⟨r, hr, h1, h2, h3⟩
        exact ⟨r, List.mem_cons_of_mem _ hr, h1, h2, h3⟩
      · rintro ⟨r, hr, h1, h2, h3⟩
        rcases List.mem_cons.mp hr with he | hm
        · exfalso
          rw [he] at h1
          exact hv h1
        · exact ⟨r, hm, h1, h2, h3⟩

/-- Claim C2: for every non-empty string input, `standardize_room_type`
returns a member of the fixed category set {１Ｒ, １Ｋ, １ＬＤＫ, ２ＬＤＫ,
３ＬＤＫ, ４ＬＤＫ, その他} and never any other value; in particular
`１ＤＫ` maps to `１Ｋ` and `studio-mini` to その他. -/
theorem claim_C2_floor_plan_coverage (s : String) (hne : s ≠ "") :
    standardize_room_type s ∈ roomCategories ∧
    standardize_room_type "１ＤＫ" = "１Ｋ" ∧
    standardize_room_type "studio-mini" = "その他" :=
  ⟨standardize_room_type_mem s, by decide, by decide⟩

theorem claim_C2_witness :
    standardize_room_type "１ＤＫ" ∈ roomCategories :=
  (claim_C2_floor_plan_coverage "１ＤＫ" (by decide)).1

/-- Claim C3: for every input string, `clean_price` strips all non-digit
characters and returns the value of the remaining digits as a
non-negative integer, or `none` when nothing remains; `¥12,345,000`
yields 12345000 and `""` and `N/A` yield `none`. -/
theorem claim_C3_price_parsing (s : String) :
    (clean_price s = if s.toList.filter Char.isDigit = [] then none
       else some ((digitsVal (s.toList.filter Char.isDigit) : Int))) ∧
    (∀ n, clean_price s = some n → 0 ≤ n) ∧
    clean_price "¥12,345,000" = some 12345000 ∧
    clean_price "" = none ∧ clean_price "N/A" = none := by
  exact ⟨clean_price_eq_digits s, fun n hn => clean_price_nonneg s n hn,
    by decide, by decide, by decide⟩

theorem claim_C3_witness : (0 : Int) ≤ 12345000 :=
  (claim_C3_price_parsing "¥12,345,000").2.1 12345000 (by decide)

/-- Claim C5: for every building-year label consisting of a 4-digit year
followed by the era marker 年 and every transaction year, the
building-age deriver returns `max 0 (transactionYear - builtYear)` (so
the derived age is never negative, even when the built year exceeds the
transaction year), and it returns `none` for the empty label and for any
label whose marker-stripped remainder does not parse as an integer. -/
theorem claim_C5_building_age_clamped (ds : List Char) (ty : Int)
    (h4 : ds.length = 4) (hd : ds.all Char.isDigit = true) :
    extract_building_age (String.mk (ds ++ ['年'])) ty
        = some (max 0 (ty - (digitsVal ds : Int))) ∧
    (∀ a, extract_building_age (String.mk (ds ++ ['年'])) ty = some a → 0 ≤ a) ∧
    (∀ t2 : Int, extract_building_age "" t2 = none) ∧
    (∀ (s : String) (t2 : Int),
        pyInt (String.mk (s.toList.filter (fun c => c ≠ '年'))) = none →
        extract_building_age s t2 = none) := by
  have hne : ds ≠ [] := by
    intro h
    rw [h] at h4
    simp at h4
  have hmain : extract_building_age (String.mk (ds ++ ['年'])) ty
      = some (max 0 (ty - (digitsVal ds : Int))) := by
    have hstr_ne : String.mk (ds ++ ['年']) ≠ "" := by
      intro he
      have h0 : ds ++ ['年'] = [] := congrArg String.data he
      simp at h0
    have hcont : (String.mk (ds ++ ['年'])).toList.contains '年' = true := by
      have hm : '年' ∈ ds ++ ['年'] := List.mem_append_right _ (by simp)
      exact List.elem_iff.mpr hm
    have hfilter : (String.mk (ds ++ ['年'])).toList.filter (fun c => c ≠ '年') = ds := by
      show (ds ++ ['年']).filter (fun c => decide (c ≠ '年')) = ds
      rw [List.filter_append]
      have h1 : ds.filter (fun c => decide (c ≠ '年')) = ds := by
        apply List.filter_eq_self.mpr
        intro c hc
        have hcd : c.isDigit = true := List.all_eq_true.mp hd c hc
        simp only [decide_eq_true_eq]
        intro he
        rw [he] at hcd
        simp at hcd
      have h2 : (['年'] : List Char).filter (fun c => decide (c ≠ '年')) = [] := by decide
      rw [h1, h2, List.append_nil]
    unfold extract_building_age
    rw [if_pos ⟨hstr_ne, hcont⟩, hfilter, pyInt_digits ds hne hd]
  refine ⟨hmain, ?_, ?_, ?_⟩
  · intro a ha
    rw [hmain] at ha
    have he : max 0 (ty - (digitsVal ds : Int)) = a := by simpa using ha
    rw [← he]
    exact le_max_left _ _
  · intro t2
    simp [extract_building_age]
  · intro s t2 hnone
    unfold extract_building_age
    by_cases hc : s ≠ "" ∧ s.toList.contains '年' = true
    · rw [if_pos hc, hnone]
    · rw [if_neg hc]

theorem claim_C5_witness :
    extract_building_age "2003年" 1990 = some 0 ∧
    extract_building_age "2003年" 2024 = some 21 := by
  have h1 := (claim_C5_building_age_clamped ['2', '0', '0', '3'] 1990 (by decide) (by decide)).1
  have h2 := (claim_C5_building_age_clamped ['2', '0', '0', '3'] 2024 (by decide) (by decide)).1
  have e1 : String.mk (['2', '0', '0', '3'] ++ ['年']) = "2003年" := rfl
  rw [e1] at h1 h2
  exact ⟨by rw [h1]; decide, by rw [h2]; decide⟩

/-- Claim C9: for the empty string input, and for a raw record whose
floor-plan field is missing (passed through as the empty string),
`standardize_room_type` yields the catch-all category その他. -/
theorem claim_C9_empty_floor_plan (r : RawRecord) (h : r.floorPlan = none) :
    standardize_room_type "" = "その他" ∧
    (transform_api_record r).floorPlanCategory = "その他" := by
  refine ⟨by decide, ?_⟩
  have he : (transform_api_record r).floorPlanCategory
      = standardize_room_type (oget r.floorPlan) := rfl
  rw [he, h]
  decide

theorem claim_C9_witness :
    (transform_api_record rawMissingPlan).floorPlanCategory = "その他" :=
  (claim_C9_empty_floor_plan rawMissingPlan rfl).2

/-- Claim C10: the building-age deriver does not require a 4-digit
year: whenever the label contains the marker 年 and its marker-stripped
characters parse as an integer `n` of any width, the result is
`max 0 (transactionYear - n)`; in particular `3年` with transaction year
2024 yields age 2021. -/
theorem claim_C10_any_width_year (s : String) (ty n : Int)
    (hy : s.toList.contains '年' = true)
    (hp : pyInt (String.mk (s.toList.filter (fun c => c ≠ '年'))) = some n) :
    extract_building_age s ty = some (max 0 (ty - n)) := by
  have hne : s ≠ "" := by
    intro he
    rw [he] at hy
    simp at hy
  unfold extract_building_age
  rw [if_pos ⟨hne, hy⟩, hp]

theorem claim_C10_witness : extract_building_age "3年" 2024 = some 2021 := by
  have h := claim_C10_any_width_year "3年" 2024 3 (by decide) (by decide)
  rw [h]
  decide

/-- Claim C1 fails on the code: a transformed record whose price is
present and equal to 0 satisfies the claimed admissibility conditions
(price present, transaction year present, property type valid) yet is
dropped by the batch transformer, because the filter tests Python
truthiness, not presence. -/
theorem claim_C1_counterexample :
    isValidType rawPriceZero = true ∧
    (transform_api_record rawPriceZero).price = some 0 ∧
    (transform_api_record rawPriceZero).transactionYear = some 2024 ∧
    transform_api_data [rawPriceZero] = [] := by decide

/-- Claim C1 (amended): the output of the batch transformer contains exactly
the transformed records of type-valid raw records whose price and
transaction year are present and nonzero; every emitted record has a
present nonzero price, a present nonzero transaction year, and a
property type in the valid set, and every transformed record meeting the
truthiness conditions is kept. -/
theorem claim_C1_amended (batch : List RawRecord) :
    (∀ t ∈ transform_api_data batch,
        (∃ p, t.price = some p ∧ p ≠ 0) ∧
        (∃ y, t.transactionYear = some y ∧ y ≠ 0) ∧
        t.propType ∈ valid_property_types) ∧
    (∀ r ∈ batch, isValidType r = true →
        pyTruthyInt (transform_api_record r).price = true →
        pyTruthyInt (transform_api_record r).transactionYear = true →
        transform_api_record r ∈ transform_api_data batch) := by
  constructor
  · intro t ht
    obtain ⟨r, hr, hval, hteq, hcond⟩ := (mem_transform_api_data batch t).mp ht
    rw [Bool.and_eq_true] at hcond
    refine ⟨(pyTruthyInt_iff _).mp hcond.1, (pyTruthyInt_iff _).mp hcond.2, ?_⟩
    have hp : t.propType = oget r.propType := by rw [hteq]; rfl
    rw [hp]
    exact validType_mem r hval
  · intro r hr hv hp hy
    exact (mem_transform_api_data batch (transform_api_record r)).mpr
      ⟨r, hr, hv, rfl, by rw [Bool.and_eq_true]; exact ⟨hp, hy⟩⟩

theorem claim_C1_witness :
    transform_api_record rawMissingPlan ∈ transform_api_data [rawMissingPlan] :=
  (claim_C1_amended [rawMissingPlan]).2 rawMissingPlan
    (List.mem_cons_self _ _) (by decide) (by decide) (by decide)

/-- Claim C4 fails on the code: for a period label parsing to the year
0, the transaction-year parse succeeds (the emitted transaction year is
`some 0`), yet building-age derivation still substitutes the fallback
year 2024, because `transaction_year or 2024` tests Python truthiness,
not parse success. -/
theorem claim_C4_counterexample :
    extract_year_from_period (oget rawYearZero.period) = some 0 ∧
    (transform_api_record rawYearZero).transactionYear = some 0 ∧
    (transform_api_record rawYearZero).buildingAge
      ≠ extract_building_age (oget rawYearZero.buildingYear) 0 := by decide

/-- Claim C4 (amended): the emitted transaction year always equals
exactly the result of parsing the period field, so the fallback year
2024 never leaks into that field; the fallback is used inside
building-age derivation exactly when the parse fails or yields the
(falsy) year 0, and for any parsed nonzero year the derivation uses that
year. -/
theorem claim_C4_amended (r : RawRecord) :
    (transform_api_record r).transactionYear = extract_year_from_period (oget r.period) ∧
    (extract_year_from_period (oget r.period) = none →
      (transform_api_record r).buildingAge
        = extract_building_age (oget r.buildingYear) 2024) ∧
    (extract_year_from_period (oget r.period) = some 0 →
      (transform_api_record r).buildingAge
        = extract_building_age (oget r.buildingYear) 2024) ∧
    (∀ y : Int, extract_year_from_period (oget r.period) = some y → y ≠ 0 →
      (transform_api_record r).buildingAge
        = extract_building_age (oget r.buildingYear) y) := by
  have hb : (transform_api_record r).buildingAge
      = extract_building_age (oget r.buildingYear)
          (pyOrInt (extract_year_from_period (oget r.period)) 2024) := rfl
  refine ⟨rfl, ?_, ?_, ?_⟩
  · intro h
    rw [hb, h]
    rfl
  · intro h
    rw [hb, h]
    simp [pyOrInt]
  · intro y hy hnz
    rw [hb, hy]
    simp [pyOrInt, hnz]

theorem claim_C4_witness :
    (transform_api_record rawMissingPlan).buildingAge
      = extract_building_age (oget rawMissingPlan.buildingYear) 2024 :=
  (claim_C4_amended rawMissingPlan).2.2.2 2024 (by decide) (by decide)

/-- Claim C8 fails on the code: the emitted prefecture, municipality and
district of a raw record with surrounding whitespace are not the trimmed
raw strings — the transformer passes these fields through without
trimming. -/
theorem claim_C8_counterexample :
    (transform_api_record rawPadded).prefecture ≠ pyStrip (oget rawPadded.prefecture) ∧
    (transform_api_record rawPadded).municipality ≠ pyStrip (oget rawPadded.municipality) ∧
    (transform_api_record rawPadded).district ≠ pyStrip (oget rawPadded.districtName) := by
  decide

/-- Claim C8 (amended): for every raw record, the emitted prefecture,
municipality and district equal the corresponding raw input strings
passed through unchanged (no whitespace trimming is applied). -/
theorem claim_C8_amended (r : RawRecord) :
    (transform_api_record r).prefecture = oget r.prefecture ∧
    (transform_api_record r).municipality = oget r.municipality ∧
    (transform_api_record r).district = oget r.districtName :=
  ⟨rfl, rfl, rfl⟩

/-- Claim C7: every field normalizer is a total function on string
inputs, always returning either a typed value of the expected shape or
the explicit absent marker: the period-year parser yields `none` or a
non-negative year, the building-age deriver yields `none` or a
non-negative age, the floor-plan categorizer always yields one of the
fixed categories, the price parser yields `none` or a non-negative
integer, and the area parser yields `none` or a non-negative rational. -/
theorem claim_C7_normalizers_total (s : String) (ty : Int) :
    (extract_year_from_period s = none ∨
      ∃ y, extract_year_from_period s = some y ∧ 0 ≤ y) ∧
    (extract_building_age s ty = none ∨
      ∃ a, extract_building_age s ty = some a ∧ 0 ≤ a) ∧
    standardize_room_type s ∈ roomCategories ∧
    (clean_price s = none ∨ ∃ n, clean_price s = some n ∧ 0 ≤ n) ∧
    (clean_area s = none ∨ ∃ q, clean_area s = some q ∧ 0 ≤ q) := by
  refine ⟨?_, ?_, standardize_room_type_mem s, ?_, ?_⟩
  · cases hy : extract_year_from_period s with
    | none => exact Or.inl rfl
    | some y => exact Or.inr ⟨y, rfl, extract_year_nonneg s y hy⟩
  · cases ha : extract_building_age s ty with
    | none => exact Or.inl rfl
    | some a => exact Or.inr ⟨a, rfl, extract_building_age_nonneg s ty a ha⟩
  · cases hn : clean_price s with
    | none => exact Or.inl rfl
    | some n => exact Or.inr ⟨n, rfl, clean_price_nonneg s n hn⟩
  · cases hq : clean_area s with
    | none => exact Or.inl rfl
    | some q => exact Or.inr ⟨q, rfl, clean_area_nonneg s q hq⟩

/-- Claim C6: for every selection of records, the per-year aggregation
has an entry exactly for the years occurring in the selection (a year
with no rows has no entry), each entry carrying the arithmetic mean of
price and the group size; on the selection with years [2020, 2020, 2021]
and prices [100, 200, 300] it yields 2020 ↦ (mean 150, count 2),
2021 ↦ (mean 300, count 1), and no entry for 2022. -/
theorem claim_C6_aggregation (df : List ChartRow) (y : Int) :
    (yearly_avg_price df y = none ↔ y ∉ df.map (fun r => r.transactionYear)) ∧
    (∀ m, yearly_avg_price df y = some m →
        yearly_count df y ≠ 0 ∧
        (yearly_count df y : ℚ) * m = ((groupRows df y).map (fun r => r.price)).sum) ∧
    (yearly_avg_price (filter_chart exampleRows "A市" "ALL") 2020 = some 150 ∧
     yearly_count (filter_chart exampleRows "A市" "ALL") 2020 = 2 ∧
     yearly_avg_price (filter_chart exampleRows "A市" "ALL") 2021 = some 300 ∧
     yearly_count (filter_chart exampleRows "A市" "ALL") 2021 = 1 ∧
     yearly_avg_price (filter_chart exampleRows "A市" "ALL") 2022 = none) := by
  have hfc : filter_chart exampleRows "A市" "ALL" = exampleRows := rfl
  refine ⟨?_, ?_, ?_, ?_, ?_, ?_, ?_⟩
  · constructor
    · intro h hm
      by_cases hf : groupRows df y = []
      · obtain ⟨r, hr, hry⟩ := List.mem_map.mp hm
        have h2 : ∀ a ∈ df, ¬((fun r => r.transactionYear == y) a = true) := by
          have h3 := hf
          simp only [groupRows] at h3
          exact List.filter_eq_nil_iff.mp h3
        exact (h2 r hr) (by simp [hry])
      · simp only [yearly_avg_price] at h
        rw [if_neg hf] at h
        exact absurd h (by simp)
    · intro hnm
      have hf : groupRows df y = [] := by
        simp only [groupRows]
        rw [List.filter_eq_nil_iff]
        intro r hr hbeq
        exact hnm (List.mem_map.mpr ⟨r, hr, by simpa using hbeq⟩)
      simp only [yearly_avg_price]
      rw [if_pos hf]
  · intro m hm
    simp only [yearly_avg_price] at hm
    by_cases hf : groupRows df y = []
    · rw [if_pos hf] at hm
      exact absurd hm (by simp)
    · rw [if_neg hf] at hm
      have he : ((groupRows df y).map (fun r => r.price)).sum
          / ((groupRows df y).length : ℚ) = m := by simpa using hm
      have hlen : (groupRows df y).length ≠ 0 := by
        intro h0
        exact hf (List.length_eq_zero.mp h0)
      refine ⟨hlen, ?_⟩
      have hq : ((groupRows df y).length : ℚ) ≠ 0 := Nat.cast_ne_zero.mpr hlen
      simp only [yearly_count]
      rw [← he, mul_comm, div_mul_cancel₀ _ hq]
  · rw [hfc]
    norm_num [yearly_avg_price, groupRows, exampleRows]
    intro h
    simp at h
  · rw [hfc]
    decide
  · rw [hfc]
    norm_num [yearly_avg_price, groupRows, exampleRows]
  · rw [hfc]
    decide
  · rw [hfc]
    norm_num [yearly_avg_price, groupRows, exampleRows]

theorem claim_C6_witness :
    yearly_count exampleRows 2020 ≠ 0 ∧
    (yearly_count exampleRows 2020 : ℚ) * 150
      = ((groupRows exampleRows 2020).map (fun r => r.price)).sum := by
  apply (claim_C6_aggregation exampleRows 2020).2.1 150
  norm_num [yearly_avg_price, groupRows, exampleRows]
  intro h
  simp at h

end JapanHouseTrend
